import Mathlib

/-!
Verification of the `counter` slice of rtk-split
(src/counter/src/counterSlice.ts, mounted by src/main-app/src/app/store.ts).

The slice is a Redux Toolkit `createSlice` over `CounterState`.
We embed the state shape, the generated reducer (the three `reducers`
cases plus the two `extraReducers` cases for the async thunk, with the
Redux default of returning the state unchanged on any unhandled action,
such as the thunk's rejected action), the `incrementIfOdd` thunk, the
`selectCount` selector, and the module-level rebindable hook pair with
its `initializeSlicePackage` entry point.

JavaScript's `%` on integers is truncated remainder (result carries the
sign of the dividend), which is `Int.tmod` in Lean.
-/

namespace CounterSlice

/-- `status: "idle" | "loading" | "failed"` from the `CounterState` interface. -/
inductive Status where
  | idle
  | loading
  | failed
deriving DecidableEq, Repr

/-- `CounterState { value: number; status: ... }`; `value` is an integer per the spec. -/
structure CounterState where
  value : Int
  status : Status
deriving DecidableEq, Repr

/-- `const initialState: CounterState = { value: 0, status: "idle" }`. -/
def initialState : CounterState :=
  { value := 0, status := Status.idle }

/-- The actions the generated slice reducer can receive: the three actions
generated from the `reducers` field, and the three lifecycle actions the
`incrementAsync` thunk (`createAsyncThunk`) generates. -/
inductive CounterAction where
  | increment
  | decrement
  | incrementByAmount (amount : Int)
  | incrementAsyncPending
  | incrementAsyncFulfilled (payload : Int)
  | incrementAsyncRejected
deriving DecidableEq, Repr

/-- The reducer `counterSlice.reducer` generated by `createSlice`:
`reducers` handles increment (`value += 1`), decrement (`value -= 1`),
incrementByAmount (`value += action.payload`); `extraReducers` handles
`incrementAsync.pending` (`status = "loading"`) and
`incrementAsync.fulfilled` (`status = "idle"; value += action.payload`).
Any other action (in particular `incrementAsync.rejected`, for which no
case is added) returns the state unchanged. -/
def counterSliceReducer (state : CounterState) (action : CounterAction) : CounterState :=
  match action with
  | CounterAction.increment => { state with value := state.value + 1 }
  | CounterAction.decrement => { state with value := state.value - 1 }
  | CounterAction.incrementByAmount amount => { state with value := state.value + amount }
  | CounterAction.incrementAsyncPending => { state with status := Status.loading }
  | CounterAction.incrementAsyncFulfilled payload =>
      { state with status := Status.idle, value := state.value + payload }
  | CounterAction.incrementAsyncRejected => state

/-- Folding the reducer over a queue of dispatched actions (the conceptual
single-threaded action queue of the store). -/
def applyActions (state : CounterState) : List CounterAction → CounterState
  | [] => state
  | a :: rest => applyActions (counterSliceReducer state a) rest

/-- `RootStateInterface = { counter: CounterState } & Record<string, any>`:
the composed root state carries the slice under the `counter` key. -/
structure RootStateInterface where
  counter : CounterState
deriving DecidableEq, Repr

/-- `selectCount = (state) => state.counter.value`. -/
def selectCount (state : RootStateInterface) : Int :=
  state.counter.value

/-- Dispatching a slice action against the composed store: the host mounts
`counterSliceReducer` under the `counter` key, so the action updates that field. -/
def rootDispatch (root : RootStateInterface) (action : CounterAction) : RootStateInterface :=
  { root with counter := counterSliceReducer root.counter action }

/-- The `incrementIfOdd` thunk: reads `selectCount(getState())` at dispatch
time; if `currentValue % 2 === 1` (JavaScript truncated remainder) it
dispatches `incrementByAmount(amount)`, otherwise it does nothing. -/
def incrementIfOdd (amount : Int) (root : RootStateInterface) : RootStateInterface :=
  let currentValue := selectCount root
  if currentValue.tmod 2 = 1 then
    rootDispatch root (CounterAction.incrementByAmount amount)
  else
    root

/-- The synchronous part of dispatching `incrementAsync(amount)`: the thunk
middleware dispatches the `pending` action before the external call starts. -/
def incrementAsyncDispatch (state : CounterState) : CounterState :=
  counterSliceReducer state CounterAction.incrementAsyncPending

/-- The completion of `incrementAsync`: when `fetchCount` resolves, the thunk
returns `response.data` and the middleware dispatches `fulfilled` with that
payload, applied against the state at resolution time. -/
def incrementAsyncResolve (result : Int) (state : CounterState) : CounterState :=
  counterSliceReducer state (CounterAction.incrementAsyncFulfilled result)

/-- The module-level rebindable hook pair of the slice package:
`useSliceDispatch` and `useSliceSelector` are mutable module bindings. -/
structure SliceBindings (D S : Type) where
  useSliceDispatch : D
  useSliceSelector : S

/-- `initializeSlicePackage(useAppDispatch, useAppSelector)` overwrites both
module bindings with the host-provided pair. -/
def initializeSlicePackage {D S : Type} (useAppDispatch : D) (useAppSelector : S)
    (_bindings : SliceBindings D S) : SliceBindings D S :=
  { useSliceDispatch := useAppDispatch, useSliceSelector := useAppSelector }

end CounterSlice

namespace CounterSlice

/-- Each reducer case other than pending and fulfilled leaves `status` untouched,
so a state whose status is not `failed` never transitions to `failed`. -/
theorem reducer_status_not_failed (s : CounterState) (a : CounterAction)
    (h : s.status ≠ Status.failed) :
    (counterSliceReducer s a).status ≠ Status.failed := by
  cases a <;> simp [counterSliceReducer] <;> exact h

/-- Folding the reducer over any action list preserves "status is not failed". -/
theorem applyActions_status_not_failed (s : CounterState) (acts : List CounterAction)
    (h : s.status ≠ Status.failed) :
    (applyActions s acts).status ≠ Status.failed := by
  induction acts generalizing s with
  | nil => exact h
  | cons a rest ih => exact ih _ (reducer_status_not_failed s a h)

/-- C1: dispatching `incrementAsync` immediately sets status to loading and
leaves value unchanged; on resolution with `result`, the fulfilled transition
sets status to idle and adds `result` to the value held at resolution time.
In particular, against `{value: 10, status: idle}` the state is
`{value: 10, status: loading}` after dispatch and `{value: 17, status: idle}`
after resolution with 7. -/
theorem incrementAsync_lifecycle (s r : CounterState) (result : Int) :
    (incrementAsyncDispatch s).status = Status.loading ∧
    (incrementAsyncDispatch s).value = s.value ∧
    (incrementAsyncResolve result r).status = Status.idle ∧
    (incrementAsyncResolve result r).value = r.value + result ∧
    incrementAsyncDispatch { value := 10, status := Status.idle } =
      { value := 10, status := Status.loading } ∧
    incrementAsyncResolve 7 (incrementAsyncDispatch { value := 10, status := Status.idle }) =
      { value := 17, status := Status.idle } :=
  ⟨rfl, rfl, rfl, rfl, rfl, rfl⟩

/-- C2: in every state reachable from the initial state by dispatching any
sequence of slice actions, the status is never `failed`: no handled
transition ever writes `failed`. -/
theorem reachable_status_never_failed (acts : List CounterAction) :
    (applyActions initialState acts).status ≠ Status.failed :=
  applyActions_status_not_failed initialState acts (by simp [initialState])

/-- C3: the slice adds no case for the thunk's rejected action, so on
rejection the reducer returns the state unchanged, and once status is
`loading` every action other than fulfilled leaves it at `loading`. -/
theorem rejection_unhandled (s t : CounterState) (a : CounterAction)
    (hs : t.status = Status.loading)
    (ha : ∀ n, a ≠ CounterAction.incrementAsyncFulfilled n) :
    counterSliceReducer s CounterAction.incrementAsyncRejected = s ∧
    (counterSliceReducer t a).status = Status.loading := by
  refine ⟨rfl, ?_⟩
  cases a
  case incrementAsyncFulfilled n => exact absurd rfl (ha n)
  all_goals simp [counterSliceReducer, hs]

theorem rejection_unhandled_witness :
    counterSliceReducer { value := 0, status := Status.idle }
        CounterAction.incrementAsyncRejected = { value := 0, status := Status.idle } ∧
    (counterSliceReducer { value := 5, status := Status.loading }
        CounterAction.increment).status = Status.loading :=
  rejection_unhandled { value := 0, status := Status.idle }
    { value := 5, status := Status.loading } CounterAction.increment rfl
    (fun _ h => nomatch h)

/-- C4: `incrementIfOdd(amount)` dispatches `incrementByAmount(amount)` when
the current value taken modulo 2 with the sign of the value equals 1, and
otherwise leaves the state unchanged; with value 3 and amount 5 the result
is 8, with value 4 it stays 4, and a negative value such as -3 (whose
signed remainder is -1, not 1) also leaves the state unchanged. -/
theorem incrementIfOdd_correct (root : RootStateInterface) (amount : Int) :
    (root.counter.value.tmod 2 = 1 →
      (incrementIfOdd amount root).counter.value = root.counter.value + amount ∧
      (incrementIfOdd amount root).counter.status = root.counter.status) ∧
    (root.counter.value.tmod 2 ≠ 1 → incrementIfOdd amount root = root) ∧
    (incrementIfOdd 5 { counter := { value := 3, status := Status.idle } }).counter.value = 8 ∧
    incrementIfOdd 5 { counter := { value := 4, status := Status.idle } } =
      { counter := { value := 4, status := Status.idle } } ∧
    incrementIfOdd 5 { counter := { value := -3, status := Status.idle } } =
      { counter := { value := -3, status := Status.idle } } := by
  refine ⟨fun h => ?_, fun h => ?_, by decide, by decide, by decide⟩
  · simp [incrementIfOdd, selectCount, h, rootDispatch, counterSliceReducer]
  · simp [incrementIfOdd, selectCount, h]

theorem incrementIfOdd_correct_witness :
    ((incrementIfOdd 5 { counter := { value := 3, status := Status.idle } }).counter.value
        = 3 + 5 ∧
      (incrementIfOdd 5 { counter := { value := 3, status := Status.idle } }).counter.status
        = Status.idle) ∧
    incrementIfOdd 5 { counter := { value := 4, status := Status.idle } } =
      { counter := { value := 4, status := Status.idle } } :=
  ⟨(incrementIfOdd_correct { counter := { value := 3, status := Status.idle } } 5).1
      (by decide),
    (incrementIfOdd_correct { counter := { value := 4, status := Status.idle } } 5).2.1
      (by decide)⟩

/-- C5: the value is changed only by increment, decrement, incrementByAmount
and the fulfilled transition of the thunk; every other action — in
particular the pending and rejected transitions — leaves value unchanged. -/
theorem value_frame (s : CounterState) (a : CounterAction) :
    ((counterSliceReducer s a).value = s.value ∨
      a = CounterAction.increment ∨ a = CounterAction.decrement ∨
      (∃ n, a = CounterAction.incrementByAmount n) ∨
      (∃ n, a = CounterAction.incrementAsyncFulfilled n)) ∧
    (counterSliceReducer s CounterAction.incrementAsyncPending).value = s.value ∧
    (counterSliceReducer s CounterAction.incrementAsyncRejected).value = s.value := by
  refine ⟨?_, rfl, rfl⟩
  cases a with
  | increment => exact Or.inr (Or.inl rfl)
  | decrement => exact Or.inr (Or.inr (Or.inl rfl))
  | incrementByAmount n => exact Or.inr (Or.inr (Or.inr (Or.inl ⟨n, rfl⟩)))
  | incrementAsyncPending => exact Or.inl rfl
  | incrementAsyncFulfilled n => exact Or.inr (Or.inr (Or.inr (Or.inr ⟨n, rfl⟩)))
  | incrementAsyncRejected => exact Or.inl rfl

/-- C6: `initializeSlicePackage` rebinds both hooks to the host-provided
pair, so every subsequent read of the bindings yields that pair, and a
second call overwrites the first — last write wins. -/
theorem initializeSlicePackage_rebinds {D S : Type} (d d₂ : D) (sel sel₂ : S)
    (b : SliceBindings D S) :
    (initializeSlicePackage d sel b).useSliceDispatch = d ∧
    (initializeSlicePackage d sel b).useSliceSelector = sel ∧
    initializeSlicePackage d₂ sel₂ (initializeSlicePackage d sel b) =
      initializeSlicePackage d₂ sel₂ b :=
  ⟨rfl, rfl, rfl⟩

/-- C7: applying decrement after increment restores the original state, so
in particular the value is unchanged. -/
theorem decrement_after_increment (s : CounterState) :
    counterSliceReducer (counterSliceReducer s CounterAction.increment)
      CounterAction.decrement = s := by
  cases s with
  | mk v st => simp [counterSliceReducer]

/-- C8: applying the increment reducer n times yields the same value as a
single incrementByAmount(n). -/
theorem increment_iterate_eq_incrementByAmount (s : CounterState) (n : ℕ) :
    ((fun t => counterSliceReducer t CounterAction.increment)^[n] s).value =
      (counterSliceReducer s (CounterAction.incrementByAmount (n : ℤ))).value := by
  induction n generalizing s with
  | zero => simp [counterSliceReducer]
  | succ k ih =>
      rw [Function.iterate_succ_apply, ih]
      simp [counterSliceReducer]
      omega

/-- C9: the initial state of a freshly constructed slice is exactly
value 0, status idle. -/
theorem initialState_exact : initialState = { value := 0, status := Status.idle } :=
  rfl

/-- C10: increment, decrement and incrementByAmount leave status unchanged
for every state and payload; only the pending and fulfilled transitions
ever write the status field. -/
theorem status_frame (s : CounterState) (amount : Int) (a : CounterAction) :
    (counterSliceReducer s CounterAction.increment).status = s.status ∧
    (counterSliceReducer s CounterAction.decrement).status = s.status ∧
    (counterSliceReducer s (CounterAction.incrementByAmount amount)).status = s.status ∧
    ((counterSliceReducer s a).status = s.status ∨
      a = CounterAction.incrementAsyncPending ∨
      (∃ n, a = CounterAction.incrementAsyncFulfilled n)) := by
  refine ⟨rfl, rfl, rfl, ?_⟩
  cases a with
  | increment => exact Or.inl rfl
  | decrement => exact Or.inl rfl
  | incrementByAmount n => exact Or.inl rfl
  | incrementAsyncPending => exact Or.inr (Or.inl rfl)
  | incrementAsyncFulfilled n => exact Or.inr (Or.inr ⟨n, rfl⟩)
  | incrementAsyncRejected => exact Or.inl rfl

end CounterSlice
